import Mathlib

/-
Shallow embedding of vllm/attention/backends/flashinfer.py: the FlashInfer
attention backend's metadata model (FlashInferMetadata), its begin_forward
kernel-session lifecycle, the asdict_zerocopy broadcast serialization, and
the FlashInferImpl constructor and forward dispatcher.

Python exceptions (ValueError, AssertionError, NotImplementedError) are
modelled as values of one error type carried in Except; tensors are modelled
as contents plus a device-residency flag, since the code only moves them
with .to(device) and never reads their numbers at this layer.
-/

namespace VllmFlashInfer

/-- Attention types from vllm.attention.backends.abstract.AttentionType:
the decoder self-attention type and the encoder / cross variants. -/
inductive AttentionType
  | DECODER
  | ENCODER
  | ENCODER_DECODER
  deriving DecidableEq, Repr

/-- A torch tensor as this layer sees it: opaque contents plus whether the
tensor currently lives on the compute device. The dispatch and lifecycle
code never reads tensor numerics, it only moves tensors with .to(device). -/
structure Tensor where
  data : List Int
  onDevice : Bool
  deriving DecidableEq, Repr

/-- tensor.to(self.device): the result is device-resident with the same
contents; applied to an already device-resident tensor it is the identity. -/
def Tensor.to_device (t : Tensor) : Tensor :=
  { t with onDevice := true }

/-- torch dtype descriptor (data_type field); contents are never inspected
by this layer, only passed through to the decode plan. -/
inductive DType
  | half
  | bfloat16
  | float32
  deriving DecidableEq, Repr

/-- One error type covering every exception this file can raise:
ValueError at construction (ConfigurationError in the design taxonomy),
NotImplementedError (UnsupportedOperation), and the AssertionError sites
(UnsupportedBatchShape / PreconditionViolation). -/
inductive VllmError
  | configUnsupportedHeadDim
  | configSlidingWindow
  | headsNotDivisibleAssert
  | zeroKvHeadsDivision
  | scaleAssert
  | unsupportedOperation
  | unsupportedBatchShape
  | emptyBatchAssert
  | decodeMetaAssert
  | decodeMetaNone
  | prefillWrapperNone
  | decodeWrapperNone
  | pagedKvIndicesNone
  | pagedKvIndptrNone
  | pagedKvLastPageLenNone
  | sessionAlreadyPlanned
  deriving DecidableEq, Repr

/-- The argument bundle a kernel plan is built from.  A prefill plan is
planned from (query_start_loc, paged_kv_indptr, paged_kv_indices,
paged_kv_last_page_len, num_qo_heads, num_kv_heads, head_dim, page_size);
a decode plan additionally fixes pos_encoding_mode="NONE" and the cache
data_type, and its array arguments may be None under graph capture. -/
inductive Plan
  | prefill (query_start_loc : Option Tensor)
      (indptr indices lastPageLen : Tensor)
      (numQoHeads numKvHeads headDim pageSize : Option Nat)
  | decode (indptr indices lastPageLen : Option Tensor)
      (numQoHeads numKvHeads headDim pageSize : Option Nat)
      (posEncodingMode : String) (dataType : Option DType)
  deriving DecidableEq, Repr

/-- Modelled from the spec: the external flashinfer wrapper objects
(BatchPrefillWithPagedKVCacheWrapper / BatchDecodeWithPagedKVCacheWrapper)
are stateful kernel sessions with lifecycle Idle -> Planned -> Idle; their
code is outside this repository, so only the contract in the spec's
external-interface section is modelled: begin_forward plans from its
arguments and requires Idle, end_forward releases the plan and is
idempotent. -/
inductive SessionState
  | idle
  | planned (p : Plan)
  deriving DecidableEq, Repr

/-- wrapper.end_forward(): releases the plan; idempotent, callable
when already idle. -/
def SessionState.end_forward (_ : SessionState) : SessionState :=
  .idle

/-- wrapper.begin_forward(args): plans the session; requires the Idle
state, so a session never holds two simultaneously-active plans. -/
def SessionState.begin_plan : SessionState → Plan → Except VllmError SessionState
  | .idle, p => .ok (.planned p)
  | .planned _, _ => .error .sessionAlreadyPlanned

/-- FlashInferMetadata dataclass: the base AttentionMetadata fields this
file uses (num_prefills, num_prefill_tokens, num_decode_tokens,
slot_mapping) followed by the fields declared in flashinfer.py, in source
order.  The two wrapper fields hold the kernel sessions. -/
structure FlashInferMetadata where
  num_prefills : Nat
  num_prefill_tokens : Nat
  num_decode_tokens : Nat
  slot_mapping : Tensor
  max_prefill_seq_len : Nat
  use_cuda_graph : Bool
  prefill_wrapper : Option SessionState
  decode_wrapper : Option SessionState
  seq_start_loc : Option Tensor
  query_start_loc : Option Tensor
  block_tables : Option Tensor
  paged_kv_indptr : Option Tensor
  paged_kv_indices : Option Tensor
  paged_kv_last_page_len : Option Tensor
  num_qo_heads : Option Nat
  num_kv_heads : Option Nat
  head_dim : Option Nat
  page_size : Option Nat
  data_type : Option DType
  logits_soft_cap : Option Int
  deriving DecidableEq, Repr

/-- FlashInferBackend.get_supported_head_sizes(). -/
def get_supported_head_sizes : List Nat :=
  [64, 128, 256]

/-- Dataclass construction of FlashInferMetadata: assembling the fields
runs __post_init__, which raises ValueError when head_dim is not None and
not among the supported head sizes. -/
def FlashInferMetadata.construct (m : FlashInferMetadata) :
    Except VllmError FlashInferMetadata :=
  match m.head_dim with
  | some d =>
      if d ∈ get_supported_head_sizes then .ok m
      else .error .configUnsupportedHeadDim
  | none => .ok m

/-- FlashInferMetadata.prefill_metadata property: when num_decode_tokens
is 0 it asserts num_prefills > 0 and returns self, otherwise None. -/
def FlashInferMetadata.prefill_metadata (m : FlashInferMetadata) :
    Except VllmError (Option FlashInferMetadata) :=
  if m.num_decode_tokens = 0 then
    if m.num_prefills > 0 then .ok (some m) else .error .emptyBatchAssert
  else .ok none

/-- FlashInferMetadata.decode_metadata property: when num_prefills > 0 it
asserts num_decode_tokens == 0 and returns None, otherwise self. -/
def FlashInferMetadata.decode_metadata (m : FlashInferMetadata) :
    Except VllmError (Option FlashInferMetadata) :=
  if m.num_prefills > 0 then
    if m.num_decode_tokens = 0 then .ok none else .error .decodeMetaAssert
  else .ok (some m)

/-- FlashInferMetadata.begin_forward, translated branch by branch.
Prefill branch (num_prefill_tokens > 0): an early plain return when
paged_kv_indices is None; otherwise assert the prefill wrapper and the
three paged-kv arrays, move the arrays to the device, then end_forward and
begin_forward on the prefill wrapper.  Decode branch: when use_cuda_graph
is false, assert the three arrays and move them to the device; then assert
the decode wrapper and end_forward / begin_forward it with
pos_encoding_mode="NONE" and the cache data_type. -/
def FlashInferMetadata.begin_forward (m : FlashInferMetadata) :
    Except VllmError FlashInferMetadata :=
  if m.num_prefill_tokens > 0 then
    match m.paged_kv_indices with
    | none => .ok m
    | some indices =>
      match m.prefill_wrapper with
      | none => .error .prefillWrapperNone
      | some pw =>
        match m.paged_kv_indptr with
        | none => .error .pagedKvIndptrNone
        | some indptr =>
          match m.paged_kv_last_page_len with
          | none => .error .pagedKvLastPageLenNone
          | some lpl =>
            let indices' := indices.to_device
            let indptr' := indptr.to_device
            let lpl' := lpl.to_device
            match pw.end_forward.begin_plan
                (.prefill m.query_start_loc indptr' indices' lpl'
                  m.num_qo_heads m.num_kv_heads m.head_dim m.page_size) with
            | .error e => .error e
            | .ok pw' =>
              .ok { m with
                      paged_kv_indices := some indices'
                      paged_kv_indptr := some indptr'
                      paged_kv_last_page_len := some lpl'
                      prefill_wrapper := some pw' }
  else
    let step1 : Except VllmError FlashInferMetadata :=
      if m.use_cuda_graph then .ok m
      else
        match m.paged_kv_indices with
        | none => .error .pagedKvIndicesNone
        | some indices =>
          match m.paged_kv_indptr with
          | none => .error .pagedKvIndptrNone
          | some indptr =>
            match m.paged_kv_last_page_len with
            | none => .error .pagedKvLastPageLenNone
            | some lpl =>
              .ok { m with
                      paged_kv_indices := some indices.to_device
                      paged_kv_indptr := some indptr.to_device
                      paged_kv_last_page_len := some lpl.to_device }
    match step1 with
    | .error e => .error e
    | .ok m1 =>
      match m1.decode_wrapper with
      | none => .error .decodeWrapperNone
      | some dw =>
        match dw.end_forward.begin_plan
            (.decode m1.paged_kv_indptr m1.paged_kv_indices
              m1.paged_kv_last_page_len m1.num_qo_heads m1.num_kv_heads
              m1.head_dim m1.page_size "NONE" m1.data_type) with
        | .error e => .error e
        | .ok dw' => .ok { m1 with decode_wrapper := some dw' }

/-- The field names of the FlashInferMetadata dataclass, base-class fields
included, as Python dataclasses.fields would enumerate them. -/
def metadata_field_names : List String :=
  ["num_prefills", "num_prefill_tokens", "num_decode_tokens",
   "slot_mapping", "max_prefill_seq_len", "use_cuda_graph",
   "prefill_wrapper", "decode_wrapper", "seq_start_loc",
   "query_start_loc", "block_tables", "paged_kv_indptr",
   "paged_kv_indices", "paged_kv_last_page_len", "num_qo_heads",
   "num_kv_heads", "head_dim", "page_size", "data_type",
   "logits_soft_cap"]

/-- Modelled from the spec: the base AttentionMetadata.asdict_zerocopy
(vllm.attention.backends.abstract, not under src) builds the broadcast
dictionary from the dataclass fields, omitting every field named in
skip_fields; only the set of transmitted field names matters here. -/
def asdict_zerocopy_base (skip_fields : List String) : List String :=
  metadata_field_names.filter (fun f => !skip_fields.contains f)

/-- FlashInferMetadata.asdict_zerocopy override: default skip_fields to
the empty set, add prefill_wrapper and decode_wrapper to it, and delegate
to the base implementation. -/
def FlashInferMetadata.asdict_zerocopy (_ : FlashInferMetadata)
    (skip_fields : Option (List String)) : List String :=
  let s := match skip_fields with
    | none => []
    | some s => s
  asdict_zerocopy_base ("prefill_wrapper" :: "decode_wrapper" :: s)

/-- FlashInferImpl state after __init__: the fields assigned by the
constructor.  sliding_window is stored as the pair (-1, -1) once the
None check has passed. -/
structure FlashInferImpl where
  num_heads : Nat
  head_size : Nat
  scale : ℚ
  num_kv_heads : Nat
  alibi_slopes : Option (List ℚ)
  sliding_window : Int × Int
  kv_cache_dtype : String
  num_queries_per_kv : Nat
  deriving DecidableEq, Repr

/-- FlashInferImpl.__init__: raises ValueError when a sliding window is
requested; then asserts num_heads % num_kv_heads == 0 (num_kv_heads = 0
raises ZeroDivisionError in Python, modelled as its own error).  Note the
constructor takes no key/value scale arguments at all. -/
def FlashInferImpl.construct (num_heads head_size : Nat) (scale : ℚ)
    (num_kv_heads : Nat) (alibi_slopes : Option (List ℚ))
    (sliding_window : Option Nat) (kv_cache_dtype : String) :
    Except VllmError FlashInferImpl :=
  match sliding_window with
  | some _ => .error .configSlidingWindow
  | none =>
    if num_kv_heads = 0 then .error .zeroKvHeadsDivision
    else if num_heads % num_kv_heads ≠ 0 then .error .headsNotDivisibleAssert
    else
      .ok { num_heads := num_heads
            head_size := head_size
            scale := scale
            num_kv_heads := num_kv_heads
            alibi_slopes := alibi_slopes
            sliding_window := (-1, -1)
            kv_cache_dtype := kv_cache_dtype
            num_queries_per_kv := num_heads / num_kv_heads }

instance instDecEqExcept {ε α : Type} [DecidableEq ε] [DecidableEq α] :
    DecidableEq (Except ε α) := fun a b =>
  match a, b with
  | .error e, .error f =>
    if h : e = f then .isTrue (congrArg Except.error h)
    else .isFalse (fun c => h (Except.error.inj c))
  | .error _, .ok _ => .isFalse (fun c => Except.noConfusion c)
  | .ok _, .error _ => .isFalse (fun c => Except.noConfusion c)
  | .ok x, .ok y =>
    if h : x = y then .isTrue (congrArg Except.ok h)
    else .isFalse (fun c => h (Except.ok.inj c))

/-- The three code paths the forward dispatcher can execute. -/
inductive Path
  | fallback
  | pagedPrefill
  | pagedDecode
  deriving DecidableEq, Repr

/-- What a forward call did: the selected path or the exception, whether
the key/value pair was written into the paged cache before that point, and
whether the query/key/value reshape had already happened. -/
structure FwdOutcome where
  result : Except VllmError Path
  cacheWritten : Bool
  reshaped : Bool
  deriving DecidableEq, Repr

/-- FlashInferImpl.forward, statement by statement: the unit-scale
assertion, the decoder-only attention-type check, the query/key/value
reshape, the two chunked-prefill assertions, the reshape_and_cache_flash
write when kv_cache is present, then the routing on prefill_metadata /
decode_metadata with the wrapper assertions of each paged path.  kv_cache
presence is the hasCache flag; tensor numerics are not modelled. -/
def forward (hasCache : Bool) (m : FlashInferMetadata)
    (k_scale v_scale : ℚ) (attn_type : AttentionType) : FwdOutcome :=
  if ¬ (k_scale = 1 ∧ v_scale = 1) then
    ⟨.error .scaleAssert, false, false⟩
  else if attn_type ≠ .DECODER then
    ⟨.error .unsupportedOperation, false, false⟩
  else if m.num_prefill_tokens > 0 ∧ m.num_decode_tokens ≠ 0 then
    ⟨.error .unsupportedBatchShape, false, true⟩
  else if m.num_decode_tokens > 0 ∧ m.num_prefill_tokens ≠ 0 then
    ⟨.error .unsupportedBatchShape, false, true⟩
  else
    match m.prefill_metadata with
    | .error e => ⟨.error e, hasCache, true⟩
    | .ok (some pm) =>
      if hasCache then
        match pm.prefill_wrapper with
        | none => ⟨.error .prefillWrapperNone, hasCache, true⟩
        | some _ => ⟨.ok .pagedPrefill, hasCache, true⟩
      else ⟨.ok .fallback, hasCache, true⟩
    | .ok none =>
      match m.decode_metadata with
      | .error e => ⟨.error e, hasCache, true⟩
      | .ok none => ⟨.error .decodeMetaNone, hasCache, true⟩
      | .ok (some dm) =>
        match dm.decode_wrapper with
        | none => ⟨.error .decodeWrapperNone, hasCache, true⟩
        | some _ => ⟨.ok .pagedDecode, hasCache, true⟩

/-- A metadata record with every optional field absent and every count
zero; concrete instances below are built from it by field update. -/
def baseMeta : FlashInferMetadata :=
  { num_prefills := 0
    num_prefill_tokens := 0
    num_decode_tokens := 0
    slot_mapping := ⟨[], false⟩
    max_prefill_seq_len := 0
    use_cuda_graph := true
    prefill_wrapper := none
    decode_wrapper := none
    seq_start_loc := none
    query_start_loc := none
    block_tables := none
    paged_kv_indptr := none
    paged_kv_indices := none
    paged_kv_last_page_len := none
    num_qo_heads := none
    num_kv_heads := none
    head_dim := none
    page_size := none
    data_type := none
    logits_soft_cap := none }

/-- A decode-shaped batch of one token with an idle decode session and no
page arrays. -/
def decodeOneMeta : FlashInferMetadata :=
  { baseMeta with num_decode_tokens := 1, decode_wrapper := some .idle }

/-- A batch with one prefill request but zero prefill and decode tokens,
with an idle prefill session. -/
def prefillReqOnlyMeta : FlashInferMetadata :=
  { baseMeta with num_prefills := 1, prefill_wrapper := some .idle }

/-- A batch carrying both one prefill token and one decode token. -/
def mixedTokensMeta : FlashInferMetadata :=
  { baseMeta with num_prefill_tokens := 1, num_decode_tokens := 1 }

/-- A prefill-shaped batch outside graph capture whose page arrays are all
absent, with an idle prefill session. -/
def prefillNoIndicesMeta : FlashInferMetadata :=
  { baseMeta with
      num_prefill_tokens := 1
      use_cuda_graph := false
      prefill_wrapper := some .idle }

/-- A decode-shaped metadata outside graph capture with no page arrays
attached. -/
def noGraphNoPagesMeta : FlashInferMetadata :=
  { baseMeta with use_cuda_graph := false, decode_wrapper := some .idle }

/-- A prefill batch in graph-capture mode whose page arrays are present
and still host-resident. -/
def prefillCaptureMeta : FlashInferMetadata :=
  { baseMeta with
      num_prefills := 1
      num_prefill_tokens := 2
      use_cuda_graph := true
      prefill_wrapper := some .idle
      paged_kv_indices := some ⟨[2], false⟩
      paged_kv_indptr := some ⟨[0, 1], false⟩
      paged_kv_last_page_len := some ⟨[3], false⟩ }

/-- A decode batch in graph-capture mode with no page arrays and an idle
decode session. -/
def captureDecodeMeta : FlashInferMetadata :=
  { baseMeta with
      num_decode_tokens := 1
      use_cuda_graph := true
      decode_wrapper := some .idle }

/-- The state captureDecodeMeta reaches after begin_forward: only the
decode session changed, now planned from the unmoved (absent) arrays. -/
def captureDecodePlanned : FlashInferMetadata :=
  { baseMeta with
      num_decode_tokens := 1
      use_cuda_graph := true
      decode_wrapper := some (.planned
        (.decode none none none none none none none "NONE" none)) }

/-- The spec's §8 decode scenario: two decode requests, request A on pages
[2, 5] with last-page fill 3, request B on page [7] with fill 9, outside
graph capture, arrays host-resident. -/
def decodePagedMeta : FlashInferMetadata :=
  { baseMeta with
      num_decode_tokens := 1
      use_cuda_graph := false
      decode_wrapper := some .idle
      paged_kv_indices := some ⟨[2, 5, 7], false⟩
      paged_kv_indptr := some ⟨[0, 2, 3], false⟩
      paged_kv_last_page_len := some ⟨[3, 9], false⟩ }

/-- The state decodePagedMeta reaches after begin_forward: arrays moved to
the device and the decode session planned from them. -/
def decodePagedPlanned : FlashInferMetadata :=
  { baseMeta with
      num_decode_tokens := 1
      use_cuda_graph := false
      decode_wrapper := some (.planned (.decode
        (some ⟨[0, 2, 3], true⟩) (some ⟨[2, 5, 7], true⟩)
        (some ⟨[3, 9], true⟩) none none none none "NONE" none))
      paged_kv_indptr := some ⟨[0, 2, 3], true⟩
      paged_kv_indices := some ⟨[2, 5, 7], true⟩
      paged_kv_last_page_len := some ⟨[3, 9], true⟩ }

/-- Claim C3: construction with an unsupported head dimension fails with
the ValueError from __post_init__, for every combination of the other
metadata fields. -/
theorem construct_rejects_unsupported_head_dim
    (m : FlashInferMetadata) (d : Nat) (h1 : m.head_dim = some d)
    (h2 : d ∉ get_supported_head_sizes) :
    m.construct = .error .configUnsupportedHeadDim := by
  unfold FlashInferMetadata.construct
  rw [h1]
  simp [h2]

/-- Witness for C3: head dimension 96 is rejected at construction. -/
theorem construct_rejects_unsupported_head_dim_witness :
    ({ baseMeta with head_dim := some 96 } : FlashInferMetadata).construct
      = .error .configUnsupportedHeadDim :=
  construct_rejects_unsupported_head_dim _ 96 rfl (by decide)

/-- Claim C9: for every metadata instance and every skip_fields argument,
including the absent one, the broadcast dictionary produced by
asdict_zerocopy contains neither prefill_wrapper nor decode_wrapper. -/
theorem asdict_zerocopy_excludes_wrappers
    (m : FlashInferMetadata) (skip : Option (List String)) :
    "prefill_wrapper" ∉ m.asdict_zerocopy skip ∧
      "decode_wrapper" ∉ m.asdict_zerocopy skip := by
  unfold FlashInferMetadata.asdict_zerocopy asdict_zerocopy_base
  cases skip <;>
    constructor <;>
      · intro hmem
        rw [List.mem_filter] at hmem
        simp at hmem

/-- Claim C10: a metadata instance with zero prefill tokens, zero decode
tokens and zero prefill requests never reaches any of the three dispatch
paths: forward fails the num_prefills assertion inside prefill_metadata
once the earlier checks pass, and returns no .ok path for any scales or
attention type. -/
theorem empty_batch_never_dispatches
    (hasCache : Bool) (m : FlashInferMetadata) (ks vs : ℚ)
    (aty : AttentionType)
    (h1 : m.num_prefill_tokens = 0) (h2 : m.num_decode_tokens = 0)
    (h3 : m.num_prefills = 0) :
    (∀ p : Path, (forward hasCache m ks vs aty).result ≠ .ok p) ∧
    (ks = 1 → vs = 1 → aty = .DECODER →
      (forward hasCache m ks vs aty).result = .error .emptyBatchAssert) := by
  unfold forward FlashInferMetadata.prefill_metadata
  split_ifs <;> simp_all

/-- Witness for C10: the all-zero metadata aborts with the empty-batch
assertion on a cache-attached call with unit scales. -/
theorem empty_batch_never_dispatches_witness :
    (forward true baseMeta 1 1 .DECODER).result
      = .error .emptyBatchAssert :=
  (empty_batch_never_dispatches true baseMeta 1 1 .DECODER rfl rfl rfl).2
    rfl rfl rfl

/-- Complete characterization of the successful forward calls: the call
succeeds exactly when the scales are unit, the attention type is DECODER,
and the batch falls into one of the three dispatch cases with its wrapper
present where one is consulted. -/
theorem forward_ok_iff (hasCache : Bool) (m : FlashInferMetadata)
    (ks vs : ℚ) (aty : AttentionType) (p : Path) :
    (forward hasCache m ks vs aty).result = .ok p ↔
      (ks = 1 ∧ vs = 1 ∧ aty = .DECODER ∧
       ((p = .fallback ∧ m.num_decode_tokens = 0 ∧ 0 < m.num_prefills ∧
           hasCache = false) ∨
        (p = .pagedPrefill ∧ m.num_decode_tokens = 0 ∧ 0 < m.num_prefills ∧
           hasCache = true ∧ m.prefill_wrapper ≠ none) ∨
        (p = .pagedDecode ∧ m.num_decode_tokens ≠ 0 ∧
           m.num_prefill_tokens = 0 ∧ m.num_prefills = 0 ∧
           m.decode_wrapper ≠ none))) := by
  unfold forward FlashInferMetadata.prefill_metadata
    FlashInferMetadata.decode_metadata
  split_ifs with h1 h2 h3 h4 h5 h6 h7 <;>
    (try cases hpw : m.prefill_wrapper) <;>
    (try cases hdw : m.decode_wrapper) <;>
    simp_all <;>
    first
      | rfl
      | exact eq_comm
      | (intros; omega)

/-- Claim C1 counterexample: with the cache buffer absent and a
decode-shaped batch, forward succeeds on the paged-decode path, so the
dense fallback does not run exactly when the cache is absent, a
cache-absent call is not always prefill-shaped, and the paged-decode path
does not require an attached cache. -/
theorem dispatch_cache_absent_decode_counterexample :
    (forward false decodeOneMeta 1 1 .DECODER).result = .ok .pagedDecode ∧
      Path.pagedDecode ≠ Path.fallback ∧
      decodeOneMeta.num_decode_tokens ≠ 0 := by
  refine ⟨by decide, by decide, by decide⟩

/-- Claim C1 amended: over successful forward calls the three paths are
mutually exclusive and exhaustive with these guards: the dense fallback
runs exactly when the cache is absent and the call is prefill-classified
(decodeTokenCount = 0, which under success forces a positive prefill
request count); paged prefill exactly when the cache is attached and the
call is prefill-classified; paged decode exactly when decodeTokenCount is
nonzero, with or without an attached cache (success then forces zero
prefill tokens and zero prefill requests). -/
theorem dispatch_paths_characterized (hasCache : Bool)
    (m : FlashInferMetadata) (ks vs : ℚ) (aty : AttentionType) (p : Path)
    (h : (forward hasCache m ks vs aty).result = .ok p) :
    (p = .fallback ↔ hasCache = false ∧ m.num_decode_tokens = 0) ∧
    (p = .pagedPrefill ↔ hasCache = true ∧ m.num_decode_tokens = 0) ∧
    (p = .pagedDecode ↔ m.num_decode_tokens ≠ 0) ∧
    (m.num_decode_tokens = 0 → 0 < m.num_prefills) ∧
    (m.num_decode_tokens ≠ 0 →
      m.num_prefill_tokens = 0 ∧ m.num_prefills = 0) := by
  rw [forward_ok_iff] at h
  obtain ⟨hks, hvs, haty, hcase⟩ := h
  rcases hcase with ⟨hp, c1, c2, c3⟩ | ⟨hp, c1, c2, c3, c4⟩ |
      ⟨hp, c1, c2, c3, c4⟩ <;>
    subst hp <;> simp_all

/-- Witness for the amended C1: a cache-attached decode batch dispatches
the paged-decode path, and the paged-decode biconditional holds there. -/
theorem dispatch_paths_characterized_witness :
    (forward true decodeOneMeta 1 1 .DECODER).result = .ok .pagedDecode ∧
      (Path.pagedDecode = Path.pagedDecode ↔
        decodeOneMeta.num_decode_tokens ≠ 0) :=
  ⟨by decide,
   (dispatch_paths_characterized true decodeOneMeta
      1 1 .DECODER .pagedDecode (by decide)).2.2.1⟩

/-- Claim C2 counterexample: a batch with zero prefill tokens, zero decode
tokens and one prefill request is dispatched to the paged-prefill path, so
forward does not enforce that exactly one of the two token counts is
nonzero. -/
theorem both_zero_batch_dispatches_counterexample :
    (forward true prefillReqOnlyMeta 1 1 .DECODER).result
        = .ok .pagedPrefill ∧
      prefillReqOnlyMeta.num_prefill_tokens = 0 ∧
      prefillReqOnlyMeta.num_decode_tokens = 0 := by
  refine ⟨by decide, by decide, by decide⟩

/-- Claim C2 amended: a call whose metadata has both token counts nonzero
never dispatches a path and is rejected before the cache write, with the
chunked-prefill assertion (the UnsupportedBatchShape of the design) once
the unit-scale and attention-type checks pass; forward does not, however,
reject a batch with both counts zero. -/
theorem mixed_batch_rejected (hasCache : Bool) (m : FlashInferMetadata)
    (ks vs : ℚ) (aty : AttentionType)
    (h1 : 0 < m.num_prefill_tokens) (h2 : 0 < m.num_decode_tokens) :
    (∀ p : Path, (forward hasCache m ks vs aty).result ≠ .ok p) ∧
    (forward hasCache m ks vs aty).cacheWritten = false ∧
    (ks = 1 → vs = 1 → aty = .DECODER →
      (forward hasCache m ks vs aty).result
        = .error .unsupportedBatchShape) := by
  unfold forward
  split_ifs <;> simp_all

/-- Witness for the amended C2: a batch with one prefill and one decode
token is rejected with the chunked-prefill assertion and no cache write. -/
theorem mixed_batch_rejected_witness :
    (forward true mixedTokensMeta 1 1 .DECODER).result
        = .error .unsupportedBatchShape ∧
      (forward true mixedTokensMeta 1 1 .DECODER).cacheWritten = false :=
  ⟨(mixed_batch_rejected true mixedTokensMeta 1 1 .DECODER
      (by decide) (by decide)).2.2 rfl rfl rfl,
   (mixed_batch_rejected true mixedTokensMeta 1 1 .DECODER
      (by decide) (by decide)).2.1⟩

/-- Claim C7 counterexample: an encoder-typed call with a non-unit key
scale raises the unit-scale assertion, not the NotImplementedError, so an
encoder or cross attention type does not raise UnsupportedOperation for
every combination of the other arguments. -/
theorem encoder_with_bad_scale_counterexample :
    (forward true baseMeta 2 1 .ENCODER).result = .error .scaleAssert ∧
      (forward true baseMeta 2 1 .ENCODER).result
        ≠ .error .unsupportedOperation := by
  refine ⟨by decide, by decide⟩

/-- Claim C7 amended: a non-DECODER attention type always fails before the
reshape, the cache write and every kernel invocation; the exception is the
NotImplementedError whenever the preceding unit-scale assertion passes,
and the scale assertion otherwise. -/
theorem non_decoder_rejected (hasCache : Bool) (m : FlashInferMetadata)
    (ks vs : ℚ) (aty : AttentionType) (h : aty ≠ .DECODER) :
    ((forward hasCache m ks vs aty).result = .error .scaleAssert ∨
      (forward hasCache m ks vs aty).result
        = .error .unsupportedOperation) ∧
    (forward hasCache m ks vs aty).cacheWritten = false ∧
    (forward hasCache m ks vs aty).reshaped = false ∧
    (ks = 1 → vs = 1 →
      (forward hasCache m ks vs aty).result
        = .error .unsupportedOperation) := by
  unfold forward
  split_ifs <;> simp_all

/-- Witness for the amended C7: an encoder-typed call with unit scales is
rejected with the NotImplementedError before reshape and cache write. -/
theorem non_decoder_rejected_witness :
    (forward true baseMeta 1 1 .ENCODER).result
        = .error .unsupportedOperation ∧
      (forward true baseMeta 1 1 .ENCODER).reshaped = false :=
  ⟨(non_decoder_rejected true baseMeta 1 1 .ENCODER (by decide)).2.2.2
      rfl rfl,
   (non_decoder_rejected true baseMeta 1 1 .ENCODER (by decide)).2.2.1⟩

/-- Claim C6 counterexample: the constructor takes no key/value scale at
all and succeeds for a configuration later called with a non-unit scale;
the non-unit key/value scale is rejected only at call time, by forward's
first assertion. -/
theorem kv_scale_rejected_at_call_time_counterexample :
    (∃ impl, FlashInferImpl.construct 8 64 1 8 none none "auto"
        = .ok impl) ∧
      (forward true baseMeta 2 1 .DECODER).result = .error .scaleAssert ∧
      (forward true baseMeta 2 1 .DECODER).reshaped = false := by
  refine ⟨⟨_, rfl⟩, by decide, by decide⟩

/-- Claim C6 amended: a sliding-window request is rejected at construction
with the ValueError; a non-unit key/value scale is rejected at call time,
by forward's first assertion before any other processing; a configuration
with no sliding window and a head count divisible by the key/value head
count constructs without raising. -/
theorem config_rejections (nh hs : Nat) (sc : ℚ) (nkv : Nat)
    (al : Option (List ℚ)) (sw : Option Nat) (dt : String)
    (hasCache : Bool) (m : FlashInferMetadata) (ks vs : ℚ)
    (aty : AttentionType) :
    (∀ w, sw = some w →
      FlashInferImpl.construct nh hs sc nkv al sw dt
        = .error .configSlidingWindow) ∧
    (¬ (ks = 1 ∧ vs = 1) →
      forward hasCache m ks vs aty = ⟨.error .scaleAssert, false, false⟩) ∧
    (sw = none → 0 < nkv → nh % nkv = 0 →
      ∃ impl, FlashInferImpl.construct nh hs sc nkv al sw dt
        = .ok impl) := by
  refine ⟨?_, ?_, ?_⟩
  · intro w hw
    subst hw
    rfl
  · intro hks
    unfold forward
    rw [if_pos hks]
  · intro hsw hnkv hmod
    subst hsw
    unfold FlashInferImpl.construct
    rw [if_neg (by omega)]
    rw [if_neg (by omega)]
    exact ⟨_, rfl⟩

/-- Witness for the amended C6: a sliding-window request fails
construction, a non-unit key scale fails at call time, and the same
configuration without a sliding window constructs successfully. -/
theorem config_rejections_witness :
    FlashInferImpl.construct 8 64 1 8 none (some 128) "auto"
        = .error .configSlidingWindow ∧
      forward true baseMeta 2 1 .DECODER
        = ⟨.error .scaleAssert, false, false⟩ ∧
      (∃ impl, FlashInferImpl.construct 8 64 1 8 none none "auto"
        = .ok impl) :=
  ⟨(config_rejections 8 64 1 8 none (some 128) "auto" true baseMeta 2 1
      .DECODER).1 128 rfl,
   (config_rejections 8 64 1 8 none none "auto" true baseMeta 2 1
      .DECODER).2.1 (by decide),
   (config_rejections 8 64 1 8 none none "auto" true baseMeta 2 1
      .DECODER).2.2 rfl (by decide) (by decide)⟩

/-- Claim C4 counterexample: a prefill-shaped begin call outside graph
capture whose paged_kv_indices is absent returns successfully and leaves
everything unchanged, the still-idle prefill session included, instead of
failing fatally. -/
theorem begin_missing_indices_silent_counterexample :
    prefillNoIndicesMeta.begin_forward = .ok prefillNoIndicesMeta ∧
      prefillNoIndicesMeta.use_cuda_graph = false ∧
      prefillNoIndicesMeta.paged_kv_indices = none ∧
      prefillNoIndicesMeta.prefill_wrapper = some .idle := by
  refine ⟨by decide, by decide, by decide, by decide⟩

/-- Claim C4 amended: outside graph capture a missing PageIndex field is
fatal in the decode branch for any of the three fields, and fatal in the
prefill branch when paged_kv_indices is present but another field is
missing; a prefill call with paged_kv_indices absent instead returns
successfully without planning, leaving the metadata unchanged. -/
theorem begin_missing_page_fields (m : FlashInferMetadata) :
    (m.num_prefill_tokens = 0 → m.use_cuda_graph = false →
      (m.paged_kv_indices = none ∨ m.paged_kv_indptr = none ∨
        m.paged_kv_last_page_len = none) →
      ∃ e, m.begin_forward = .error e) ∧
    (0 < m.num_prefill_tokens → m.paged_kv_indices ≠ none →
      (m.paged_kv_indptr = none ∨ m.paged_kv_last_page_len = none) →
      ∃ e, m.begin_forward = .error e) ∧
    (0 < m.num_prefill_tokens → m.paged_kv_indices = none →
      m.begin_forward = .ok m) := by
  unfold FlashInferMetadata.begin_forward
  refine ⟨?_, ?_, ?_⟩
  · intro h0 hg hmiss
    rw [if_neg (by omega), hg]
    cases hi : m.paged_kv_indices <;>
      cases hp : m.paged_kv_indptr <;>
        cases hl : m.paged_kv_last_page_len <;>
          simp_all
  · intro h0 hi hmiss
    rw [if_pos (by omega)]
    cases hind : m.paged_kv_indices with
    | none => simp_all
    | some ind =>
      cases hpw : m.prefill_wrapper <;>
        cases hp : m.paged_kv_indptr <;>
          cases hl : m.paged_kv_last_page_len <;>
            simp_all
  · intro h0 hi
    rw [if_pos (by omega), hi]

/-- Witness for the amended C4: a decode-shaped begin outside capture with
the arrays absent fails, and a prefill-shaped begin with absent indices
returns its input unchanged. -/
theorem begin_missing_page_fields_witness :
    (∃ e, noGraphNoPagesMeta.begin_forward = .error e) ∧
      prefillNoIndicesMeta.begin_forward = .ok prefillNoIndicesMeta :=
  ⟨(begin_missing_page_fields noGraphNoPagesMeta).1 rfl rfl (Or.inl rfl),
   (begin_missing_page_fields prefillNoIndicesMeta).2.2 (by decide) rfl⟩

/-- Claim C5 counterexample: in the prefill branch begin_forward transfers
the page arrays even under graph capture: a host-resident
paged_kv_indices is replaced by a device-resident copy although
use_cuda_graph is true, so the capture-mode transfer skip does not apply
to every begin call. -/
theorem begin_capture_still_transfers_counterexample :
    prefillCaptureMeta.use_cuda_graph = true ∧
      prefillCaptureMeta.paged_kv_indices = some ⟨[2], false⟩ ∧
      Except.map (fun mm : FlashInferMetadata => mm.paged_kv_indices)
          prefillCaptureMeta.begin_forward = .ok (some ⟨[2], true⟩) := by
  refine ⟨by decide, by decide, by decide⟩

/-- Claim C5 amended: a successful begin_forward changes nothing besides
the three page arrays and the two sessions; the graph-capture transfer
skip holds in the decode branch only, where the arrays are moved to the
device exactly when use_cuda_graph is false, while the prefill branch
always moves them when paged_kv_indices is present and leaves them alone
only on the early return when it is absent. -/
theorem begin_transfer_frame (m m' : FlashInferMetadata)
    (h : m.begin_forward = .ok m') :
    (m'.num_prefills = m.num_prefills ∧
     m'.num_prefill_tokens = m.num_prefill_tokens ∧
     m'.num_decode_tokens = m.num_decode_tokens ∧
     m'.slot_mapping = m.slot_mapping ∧
     m'.max_prefill_seq_len = m.max_prefill_seq_len ∧
     m'.use_cuda_graph = m.use_cuda_graph ∧
     m'.seq_start_loc = m.seq_start_loc ∧
     m'.query_start_loc = m.query_start_loc ∧
     m'.block_tables = m.block_tables ∧
     m'.num_qo_heads = m.num_qo_heads ∧
     m'.num_kv_heads = m.num_kv_heads ∧
     m'.head_dim = m.head_dim ∧
     m'.page_size = m.page_size ∧
     m'.data_type = m.data_type ∧
     m'.logits_soft_cap = m.logits_soft_cap) ∧
    (m.num_prefill_tokens = 0 → m.use_cuda_graph = true →
      m'.paged_kv_indices = m.paged_kv_indices ∧
      m'.paged_kv_indptr = m.paged_kv_indptr ∧
      m'.paged_kv_last_page_len = m.paged_kv_last_page_len) ∧
    (m.num_prefill_tokens = 0 → m.use_cuda_graph = false →
      m'.paged_kv_indices = Option.map Tensor.to_device m.paged_kv_indices ∧
      m'.paged_kv_indptr = Option.map Tensor.to_device m.paged_kv_indptr ∧
      m'.paged_kv_last_page_len
        = Option.map Tensor.to_device m.paged_kv_last_page_len) ∧
    (0 < m.num_prefill_tokens →
      (m.paged_kv_indices = none ∧ m'.paged_kv_indices = none) ∨
      (m'.paged_kv_indices = Option.map Tensor.to_device m.paged_kv_indices ∧
       m'.paged_kv_indptr = Option.map Tensor.to_device m.paged_kv_indptr ∧
       m'.paged_kv_last_page_len
         = Option.map Tensor.to_device m.paged_kv_last_page_len)) := by
  unfold FlashInferMetadata.begin_forward at h
  by_cases hp : m.num_prefill_tokens > 0
  · rw [if_pos hp] at h
    cases hind : m.paged_kv_indices with
    | none =>
      rw [hind] at h
      simp only [Except.ok.injEq] at h
      subst h
      refine ⟨by simp_all, by intros; omega, by intros; omega, ?_⟩
      intro _
      refine Or.inl ⟨?_, ?_⟩ <;> simp_all
    | some ind =>
      rw [hind] at h
      cases hpw : m.prefill_wrapper with
      | none => exact absurd h (by rw [hpw]; simp)
      | some pw =>
        rw [hpw] at h
        cases hptr : m.paged_kv_indptr with
        | none => exact absurd h (by rw [hptr]; simp)
        | some ptr =>
          rw [hptr] at h
          cases hlpl : m.paged_kv_last_page_len with
          | none => exact absurd h (by rw [hlpl]; simp)
          | some lpl =>
            rw [hlpl] at h
            simp only [SessionState.end_forward, SessionState.begin_plan,
              Except.ok.injEq] at h
            subst h
            refine ⟨by simp_all, by intros; omega, by intros; omega, ?_⟩
            intro _
            exact Or.inr (by simp_all)
  · rw [if_neg hp] at h
    by_cases hg : m.use_cuda_graph
    · rw [if_pos hg] at h
      dsimp only [] at h
      cases hdw : m.decode_wrapper with
      | none => exact absurd h (by rw [hdw]; simp)
      | some dw =>
        rw [hdw] at h
        simp only [SessionState.end_forward, SessionState.begin_plan,
          Except.ok.injEq] at h
        subst h
        refine ⟨by simp_all, by intros; simp_all, by simp_all, ?_⟩
        intro hc
        omega
    · rw [if_neg hg] at h
      cases hind : m.paged_kv_indices with
      | none => exact absurd h (by rw [hind]; simp)
      | some ind =>
        rw [hind] at h
        cases hptr : m.paged_kv_indptr with
        | none => exact absurd h (by rw [hptr]; simp)
        | some ptr =>
          rw [hptr] at h
          cases hlpl : m.paged_kv_last_page_len with
          | none => exact absurd h (by rw [hlpl]; simp)
          | some lpl =>
            rw [hlpl] at h
            cases hdw : m.decode_wrapper with
            | none => exact absurd h (by rw [hdw]; simp)
            | some dw =>
              rw [hdw] at h
              simp only [SessionState.end_forward, SessionState.begin_plan,
                Except.ok.injEq] at h
              subst h
              refine ⟨by simp_all, by simp_all, by intros; simp_all, ?_⟩
              intro hc
              omega

/-- Witness for the amended C5: a graph-capture decode begin leaves the
three page-array fields exactly as they were. -/
theorem begin_transfer_frame_witness :
    captureDecodePlanned.paged_kv_indices
        = captureDecodeMeta.paged_kv_indices ∧
      captureDecodePlanned.paged_kv_indptr
        = captureDecodeMeta.paged_kv_indptr ∧
      captureDecodePlanned.paged_kv_last_page_len
        = captureDecodeMeta.paged_kv_last_page_len :=
  (begin_transfer_frame captureDecodeMeta captureDecodePlanned
    (by decide)).2.1 rfl rfl

/-- Claim C8: begin_forward is idempotent: when a begin call succeeds,
running begin again on the resulting state, with no compute in between,
succeeds and reproduces exactly the same state — the prior plan is first
released by the wrapper's idempotent end_forward (begin_plan alone would
refuse a planned session) and rebuilt from inputs the first call left in
place, so a session never holds two simultaneously-active plans. -/
theorem begin_forward_idempotent (m m' : FlashInferMetadata)
    (h : m.begin_forward = .ok m') : m'.begin_forward = .ok m' := by
  unfold FlashInferMetadata.begin_forward at h ⊢
  by_cases hp : m.num_prefill_tokens > 0
  · rw [if_pos hp] at h
    cases hind : m.paged_kv_indices with
    | none =>
      rw [hind] at h
      simp only [Except.ok.injEq] at h
      subst h
      rw [if_pos hp, hind]
    | some ind =>
      rw [hind] at h
      cases hpw : m.prefill_wrapper with
      | none => rw [hpw] at h; exact absurd h (by simp)
      | some pw =>
        rw [hpw] at h
        cases hptr : m.paged_kv_indptr with
        | none => rw [hptr] at h; exact absurd h (by simp)
        | some ptr =>
          rw [hptr] at h
          cases hlpl : m.paged_kv_last_page_len with
          | none => rw [hlpl] at h; exact absurd h (by simp)
          | some lpl =>
            rw [hlpl] at h
            simp only [SessionState.end_forward, SessionState.begin_plan,
              Except.ok.injEq] at h
            subst h
            simp [hp, SessionState.end_forward, SessionState.begin_plan,
              Tensor.to_device]
  · rw [if_neg hp] at h
    by_cases hg : m.use_cuda_graph
    · rw [if_pos hg] at h
      dsimp only [] at h
      cases hdw : m.decode_wrapper with
      | none => rw [hdw] at h; exact absurd h (by simp)
      | some dw =>
        rw [hdw] at h
        simp only [SessionState.end_forward, SessionState.begin_plan,
          Except.ok.injEq] at h
        subst h
        simp [hp, hg, SessionState.end_forward, SessionState.begin_plan]
    · rw [if_neg hg] at h
      cases hind : m.paged_kv_indices with
      | none => rw [hind] at h; exact absurd h (by simp)
      | some ind =>
        rw [hind] at h
        cases hptr : m.paged_kv_indptr with
        | none => rw [hptr] at h; exact absurd h (by simp)
        | some ptr =>
          rw [hptr] at h
          cases hlpl : m.paged_kv_last_page_len with
          | none => rw [hlpl] at h; exact absurd h (by simp)
          | some lpl =>
            rw [hlpl] at h
            cases hdw : m.decode_wrapper with
            | none => rw [hdw] at h; exact absurd h (by simp)
            | some dw =>
              rw [hdw] at h
              simp only [SessionState.end_forward, SessionState.begin_plan,
                Except.ok.injEq] at h
              subst h
              simp [hp, hg, SessionState.end_forward,
                SessionState.begin_plan, Tensor.to_device]

/-- Witness for C8: the spec's two-request decode scenario reaches its
planned state after one begin, and a second begin reproduces it. -/
theorem begin_forward_idempotent_witness :
    decodePagedPlanned.begin_forward = .ok decodePagedPlanned :=
  begin_forward_idempotent decodePagedMeta decodePagedPlanned (by decide)
